import Mathlib

/-!
Verification of the dialect subsystem of the referencing library
(src/referencing/jsonschema.py): a shallow embedding of the schema value
model, the per-dialect extraction strategies, the dialect catalog and the
lookup function, together with theorems settling the specification claims.

Python dynamic values are embedded as an inductive JSON type; Python
functions that can raise at runtime (TypeError when the membership test
runs on a boolean, AttributeError when startswith or values is called on
a value lacking it) are embedded as functions into Except PyErr.
-/

namespace Referencing

/-- A JSON value: boolean, string, number, array or object.  Objects are
association lists, preserving insertion order as Python dicts do. -/
inductive JSON : Type where
  | bool (b : Bool)
  | str (s : String)
  | num (n : Int)
  | arr (elems : List JSON)
  | obj (kvs : List (String × JSON))

/-- The runtime errors the embedded Python code can raise: TypeError from
a membership test on a non-container, AttributeError from calling a
method a value does not have. -/
inductive PyErr : Type where
  | typeError
  | attributeError
deriving DecidableEq

/-- A Resource wraps schema contents.  Modelled from the spec: the
source constructs anchors with resource equal to the node itself via
Specification.create_resource, whose definition lives outside the shown
files; the spec states the resource equals the node, so the model keeps
only the contents. -/
structure Resource : Type where
  contents : JSON

/-- An Anchor pairs a name with the resource it designates.  The name
field is a JSON value because the source passes the raw keyword value
through without a type check. -/
structure Anchor : Type where
  name : JSON
  resource : Resource

/-- Modelled from the spec: Specification.create_resource wraps the given
contents into a Resource constructed under this specification. -/
def create_resource (contents : JSON) : Resource := ⟨contents⟩

/-- Membership test for an object key, as the Python expression
key in contents on a dict. -/
def hasKey (kvs : List (String × JSON)) (k : String) : Bool :=
  (kvs.lookup k).isSome

/-- The Python expression s.startswith(pre), embedded over the character
list of the string. -/
def pyStartswith (s pre : String) : Bool :=
  pre.data.isPrefixOf s.data

/-- The Python slice s[1:], embedded over the character list of the
string. -/
def pyDropFirst (s : String) : String :=
  ⟨s.data.drop 1⟩

/-- id_of of the modern dialects: contents.get with key id-dollar; a
boolean node has no entries, so the result is nothing.  Never raises. -/
def _dollar_id : JSON → Except PyErr (Option JSON)
  | .bool _ => .ok none
  | .obj kvs => .ok (kvs.lookup "$id")
  | _ => .error .typeError

/-- id_of of draft-07 and draft-06: nothing on a boolean node or when a
ref keyword is present; otherwise the value of the id-dollar keyword
unless it starts with a hash.  A non-string keyword value raises
AttributeError at startswith. -/
def _legacy_dollar_id : JSON → Except PyErr (Option JSON)
  | .bool _ => .ok none
  | .obj kvs =>
    if hasKey kvs "$ref" then .ok none
    else
      match kvs.lookup "$id" with
      | none => .ok none
      | some (.str s) =>
        if pyStartswith s "#" then .ok none else .ok (some (.str s))
      | some _ => .error .attributeError
  | _ => .error .typeError

/-- id_of of draft-04 and draft-03: like the draft-07 rule but reading
the plain id keyword, and with no boolean guard: the source annotates the
argument as ObjectSchema, and the membership test it starts with raises
TypeError on a boolean. -/
def _legacy_id : JSON → Except PyErr (Option JSON)
  | .obj kvs =>
    if hasKey kvs "$ref" then .ok none
    else
      match kvs.lookup "id" with
      | none => .ok none
      | some (.str s) =>
        if pyStartswith s "#" then .ok none else .ok (some (.str s))
      | some _ => .error .attributeError
  | _ => .error .typeError

/-- anchors_in of 2019-09: an empty result on a boolean node or when the
anchor-dollar keyword is absent; otherwise one Anchor carrying the raw
keyword value as its name and this node as its resource.  The source has
no emptiness or type check on the value. -/
def _anchor_2019 : JSON → Except PyErr (List Anchor)
  | .bool _ => .ok []
  | .obj kvs =>
    match kvs.lookup "$anchor" with
    | none => .ok []
    | some v => .ok [⟨v, create_resource (.obj kvs)⟩]
  | _ => .error .attributeError

/-- anchors_in of draft-07 and draft-06: read the id-dollar keyword with
an empty-string fallback; when its value starts with a hash, yield one
Anchor named by everything after the hash, with this node as resource.
A non-string keyword value raises AttributeError at startswith. -/
def _legacy_anchor_in_dollar_id : JSON → Except PyErr (List Anchor)
  | .bool _ => .ok []
  | .obj kvs =>
    match (kvs.lookup "$id").getD (.str "") with
    | .str s =>
      if pyStartswith s "#" then
        .ok [⟨.str (pyDropFirst s), create_resource (.obj kvs)⟩]
      else .ok []
    | _ => .error .attributeError
  | _ => .error .attributeError

/-- anchors_in of draft-04 and draft-03: like the draft-07 rule but
reading the plain id keyword, and with no boolean guard: the source
annotates the argument as ObjectSchema, and calling get on a boolean
raises AttributeError. -/
def _legacy_anchor_in_id : JSON → Except PyErr (List Anchor)
  | .obj kvs =>
    match (kvs.lookup "id").getD (.str "") with
    | .str s =>
      if pyStartswith s "#" then
        .ok [⟨.str (pyDropFirst s), create_resource (.obj kvs)⟩]
      else .ok []
    | _ => .error .attributeError
  | _ => .error .attributeError

/-- Iterating a JSON value as Python yield-from does: an array yields its
elements, a string its characters as one-character strings, an object its
keys; booleans and numbers are not iterable and raise TypeError. -/
def iterate : JSON → Except PyErr (List JSON)
  | .arr xs => .ok xs
  | .str s => .ok (s.toList.map fun c => .str (String.mk [c]))
  | .obj kvs => .ok (kvs.map fun kv => .str kv.1)
  | _ => .error .typeError

/-- The values view of a JSON value, as the Python expression
v.values(): defined for objects only, AttributeError otherwise. -/
def dictValues : JSON → Except PyErr (List JSON)
  | .obj kvs => .ok (kvs.map fun kv => kv.2)
  | _ => .error .attributeError

/-- The first loop of subresources_of: for each in_value keyword present,
yield its value. -/
def yieldValues : List String → List (String × JSON) → List JSON
  | [], _ => []
  | k :: ks, kvs =>
    match kvs.lookup k with
    | some v => v :: yieldValues ks kvs
    | none => yieldValues ks kvs

/-- The second loop of subresources_of: for each in_subarray keyword
present, yield from its value. -/
def yieldSubarray : List String → List (String × JSON) → Except PyErr (List JSON)
  | [], _ => .ok []
  | k :: ks, kvs =>
    match kvs.lookup k with
    | some v => do
      let xs ← iterate v
      let rest ← yieldSubarray ks kvs
      .ok (xs ++ rest)
    | none => yieldSubarray ks kvs

/-- The third loop of subresources_of: for each in_subvalues keyword
present, yield from the values of its value. -/
def yieldSubvalues : List String → List (String × JSON) → Except PyErr (List JSON)
  | [], _ => .ok []
  | k :: ks, kvs =>
    match kvs.lookup k with
    | some v => do
      let xs ← dictValues v
      let rest ← yieldSubvalues ks kvs
      .ok (xs ++ rest)
    | none => yieldSubvalues ks kvs

/-- The generator built by _subresources_of, materialized to a list: a
boolean node yields nothing; an object node runs the three loops in
order.  The keyword collections are frozensets in the source, whose
iteration order is unspecified; the embedding passes them as lists in
the order the source writes them, and no proved claim depends on the
order inside one collection. -/
def subresources_of (in_value in_subarray in_subvalues : List String) :
    JSON → Except PyErr (List JSON)
  | .bool _ => .ok []
  | .obj kvs => do
    let a := yieldValues in_value kvs
    let b ← yieldSubarray in_subarray kvs
    let c ← yieldSubvalues in_subvalues kvs
    .ok (a ++ b ++ c)
  | _ => .error .typeError

/-- A dialect specification: a display name bundled with the three
extraction strategies. -/
structure Specification : Type where
  name : String
  id_of : JSON → Except PyErr (Option JSON)
  subresources_of : JSON → Except PyErr (List JSON)
  anchors_in : JSON → Except PyErr (List Anchor)

def DRAFT202012 : Specification where
  name := "draft2020-12"
  id_of := _dollar_id
  subresources_of := fun _ => .ok []
  anchors_in := fun _ => .ok []

def DRAFT201909 : Specification where
  name := "draft2019-09"
  id_of := _dollar_id
  subresources_of := subresources_of
    ["additionalProperties", "if", "then", "else", "not"]
    ["allOf", "anyOf", "oneOf"]
    ["$defs", "properties"]
  anchors_in := _anchor_2019

def DRAFT7 : Specification where
  name := "draft-07"
  id_of := _legacy_dollar_id
  subresources_of := subresources_of
    ["additionalProperties", "if", "then", "else", "not"]
    ["allOf", "anyOf", "oneOf"]
    ["definitions", "properties"]
  anchors_in := _legacy_anchor_in_dollar_id

def DRAFT6 : Specification where
  name := "draft-06"
  id_of := _legacy_dollar_id
  subresources_of := subresources_of
    ["additionalProperties", "not"]
    ["allOf", "anyOf", "oneOf"]
    ["definitions", "properties"]
  anchors_in := _legacy_anchor_in_dollar_id

def DRAFT4 : Specification where
  name := "draft-04"
  id_of := _legacy_id
  subresources_of := subresources_of
    ["additionalProperties", "not"]
    ["allOf", "anyOf", "oneOf"]
    ["definitions", "properties"]
  anchors_in := _legacy_anchor_in_id

def DRAFT3 : Specification where
  name := "draft-03"
  id_of := _legacy_id
  subresources_of := subresources_of
    ["additionalProperties"]
    ["extends"]
    ["definitions", "properties"]
  anchors_in := _legacy_anchor_in_id

/-- The dialect catalog.  Modelled from the spec where the source leaves
the Registry class to an external module: the spec says the catalog is an
immutable mapping with exactly six literal URI keys and that lookup is
exact-match with no normalization, so it is embedded as an association
list; Resource.opaque followed by reading contents is the identity and
is elided. -/
def _SPECIFICATIONS : List (String × Specification) :=
  [ ("https://json-schema.org/draft/2020-12/schema", DRAFT202012),
    ("https://json-schema.org/draft/2019-09/schema", DRAFT201909),
    ("http://json-schema.org/draft-07/schema#", DRAFT7),
    ("http://json-schema.org/draft-06/schema#", DRAFT6),
    ("http://json-schema.org/draft-04/schema#", DRAFT4),
    ("http://json-schema.org/draft-03/schema#", DRAFT3) ]

/-- The UnknownDialect error, carrying the unrecognized URI. -/
structure UnknownDialect : Type where
  uri : String
deriving DecidableEq

/-- specification_with: exact lookup in the catalog; on a miss, return
the default if one was supplied, else raise UnknownDialect.  The Python
signature defaults the second parameter to None, so an omitted argument
and an explicitly passed None are both embedded as none. -/
def specification_with (dialect_id : String)
    (default : Option Specification) : Except UnknownDialect Specification :=
  match _SPECIFICATIONS.lookup dialect_id with
  | some s => .ok s
  | none =>
    match default with
    | some d => .ok d
    | none => .error ⟨dialect_id⟩

/-- Claim C1: for a URI that is not a catalog key, specification_with
with no default fails with UnknownDialect carrying exactly that URI, and
with a caller-supplied default returns that default without failing. -/
theorem specification_with_unknown (u : String) (d : Specification)
    (h : _SPECIFICATIONS.lookup u = none) :
    specification_with u none = .error ⟨u⟩ ∧
    specification_with u (some d) = .ok d := by
  constructor <;> simp [specification_with, h]

/-- Witness for C1 at the concrete URI from the spec example. -/
theorem specification_with_unknown_witness :
    specification_with "unknown-uri" none = .error ⟨"unknown-uri"⟩ ∧
    specification_with "unknown-uri" (some DRAFT202012) = .ok DRAFT202012 :=
  specification_with_unknown "unknown-uri" DRAFT202012 rfl

/-- Claim C6: each of the six exact catalog URIs maps to the
Specification with the expected dialect label and never fails, and any
URI missing from the catalog, lookup being exact-match without
normalization, fails. -/
theorem catalog_lookup_exact :
    (specification_with "https://json-schema.org/draft/2020-12/schema" none
        = .ok DRAFT202012 ∧ DRAFT202012.name = "draft2020-12") ∧
    (specification_with "https://json-schema.org/draft/2019-09/schema" none
        = .ok DRAFT201909 ∧ DRAFT201909.name = "draft2019-09") ∧
    (specification_with "http://json-schema.org/draft-07/schema#" none
        = .ok DRAFT7 ∧ DRAFT7.name = "draft-07") ∧
    (specification_with "http://json-schema.org/draft-06/schema#" none
        = .ok DRAFT6 ∧ DRAFT6.name = "draft-06") ∧
    (specification_with "http://json-schema.org/draft-04/schema#" none
        = .ok DRAFT4 ∧ DRAFT4.name = "draft-04") ∧
    (specification_with "http://json-schema.org/draft-03/schema#" none
        = .ok DRAFT3 ∧ DRAFT3.name = "draft-03") ∧
    ∀ u, _SPECIFICATIONS.lookup u = none →
      specification_with u none = .error ⟨u⟩ := by
  refine ⟨⟨rfl, rfl⟩, ⟨rfl, rfl⟩, ⟨rfl, rfl⟩, ⟨rfl, rfl⟩, ⟨rfl, rfl⟩,
    ⟨rfl, rfl⟩, fun u h => ?_⟩
  simp [specification_with, h]

/-- Witness for C6: a URI differing from a catalog key only in its
trailing hash character is unmatched. -/
theorem catalog_lookup_exact_witness :
    specification_with "http://json-schema.org/draft-07/schema" none
      = .error ⟨"http://json-schema.org/draft-07/schema"⟩ :=
  catalog_lookup_exact.2.2.2.2.2.2 "http://json-schema.org/draft-07/schema" rfl

/-- Claim C10: an explicitly passed None default is the same value the
omitted parameter defaults to, so on a non-catalog URI the call fails
with UnknownDialect and None is never obtained as a fallback. -/
theorem specification_with_none_default (u : String)
    (h : _SPECIFICATIONS.lookup u = none) :
    specification_with u none = .error ⟨u⟩ ∧
    ∀ s, specification_with u none ≠ .ok s := by
  have he : specification_with u none = .error ⟨u⟩ := by
    simp [specification_with, h]
  exact ⟨he, fun s hs => by rw [he] at hs; cases hs⟩

/-- Witness for C10 at a concrete non-catalog URI. -/
theorem specification_with_none_default_witness :
    specification_with "not-a-dialect" none = .error ⟨"not-a-dialect"⟩ :=
  (specification_with_none_default "not-a-dialect" rfl).1

/-- Claim C9: modern identifier extraction returns the value of the
id-dollar keyword whenever present on an object node, regardless of a
sibling ref keyword or a leading hash, and returns nothing on a boolean
node or when the keyword is absent. -/
theorem dollar_id_unconditional (kvs : List (String × JSON)) (v : JSON)
    (b : Bool) :
    (kvs.lookup "$id" = some v →
      DRAFT202012.id_of (.obj kvs) = .ok (some v) ∧
      DRAFT201909.id_of (.obj kvs) = .ok (some v)) ∧
    (kvs.lookup "$id" = none →
      DRAFT202012.id_of (.obj kvs) = .ok none ∧
      DRAFT201909.id_of (.obj kvs) = .ok none) ∧
    (DRAFT202012.id_of (.bool b) = .ok none ∧
      DRAFT201909.id_of (.bool b) = .ok none) := by
  refine ⟨fun h => ?_, fun h => ?_, rfl, rfl⟩ <;>
    constructor <;> simp [DRAFT202012, DRAFT201909, _dollar_id, h]

/-- Witness for C9: a dollar-id value with a leading hash, next to a ref
keyword, is still returned. -/
theorem dollar_id_unconditional_witness :
    DRAFT202012.id_of (.obj [("$id", .str "#frag"), ("$ref", .str "x")])
      = .ok (some (.str "#frag")) ∧
    DRAFT201909.id_of (.obj [("$id", .str "#frag"), ("$ref", .str "x")])
      = .ok (some (.str "#frag")) :=
  (dollar_id_unconditional [("$id", .str "#frag"), ("$ref", .str "x")]
    (.str "#frag") true).1 rfl

/-- Claim C4: legacy identifier extraction returns the keyword value
exactly when no ref keyword is present and the value has no leading
hash, and returns nothing when the keyword is absent, a ref keyword is
present, or the value starts with a hash; draft-07 and draft-06 read
the id-dollar keyword, draft-04 and draft-03 the plain id keyword. -/
theorem legacy_id_extraction (kvs : List (String × JSON)) (s : String) :
    (kvs.lookup "$id" = some (.str s) →
      _legacy_dollar_id (.obj kvs) =
        .ok (if hasKey kvs "$ref" || pyStartswith s "#" then none
             else some (.str s))) ∧
    (kvs.lookup "$id" = none → _legacy_dollar_id (.obj kvs) = .ok none) ∧
    (kvs.lookup "id" = some (.str s) →
      _legacy_id (.obj kvs) =
        .ok (if hasKey kvs "$ref" || pyStartswith s "#" then none
             else some (.str s))) ∧
    (kvs.lookup "id" = none → _legacy_id (.obj kvs) = .ok none) := by
  refine ⟨fun h => ?_, fun h => ?_, fun h => ?_, fun h => ?_⟩ <;>
    cases hr : hasKey kvs "$ref" <;>
      simp [_legacy_dollar_id, _legacy_id, h, hr] <;>
        cases hs : pyStartswith s "#" <;> simp [hs]

/-- Witness for C4: a clean dollar-id is returned, an id with a leading
hash is not. -/
theorem legacy_id_extraction_witness :
    _legacy_dollar_id (.obj [("$id", .str "http://e/s")])
      = .ok (some (.str "http://e/s")) ∧
    _legacy_id (.obj [("id", .str "#frag")]) = .ok none := by
  constructor
  · have h := (legacy_id_extraction [("$id", .str "http://e/s")]
      "http://e/s").1 rfl
    simpa [hasKey, show pyStartswith "http://e/s" "#" = false from rfl] using h
  · have h := (legacy_id_extraction [("id", .str "#frag")] "#frag").2.2.1 rfl
    simpa [hasKey, show pyStartswith "#frag" "#" = true from rfl] using h

/-- Counterexample to claim C3: the draft-04 and draft-03 identifier and
anchor strategies raise on a boolean-literal node instead of returning
nothing or an empty sequence. -/
theorem legacy_boolean_counterexample :
    DRAFT4.id_of (.bool true) = .error .typeError ∧
    DRAFT4.anchors_in (.bool true) = .error .attributeError ∧
    DRAFT3.id_of (.bool true) = .error .typeError ∧
    DRAFT3.anchors_in (.bool true) = .error .attributeError ∧
    DRAFT4.id_of (.bool true) ≠ .ok none ∧
    DRAFT4.anchors_in (.bool true) ≠ .ok [] := by
  refine ⟨rfl, rfl, rfl, rfl, fun h => ?_, fun h => ?_⟩ <;>
    simp [DRAFT4, _legacy_id, _legacy_anchor_in_id] at h

/-- Claim C3 (amended): the modern and draft-07 and draft-06 strategies
return nothing or an empty sequence on a boolean-literal node, and the
draft-04 and draft-03 strategies are total on object nodes with a
string-valued or absent id keyword; applied to a boolean-literal node the
draft-04 and draft-03 strategies raise instead of returning nothing. -/
theorem extraction_total_amended (kvs : List (String × JSON)) (b : Bool)
    (hid : kvs.lookup "id" = none ∨ ∃ s, kvs.lookup "id" = some (.str s)) :
    (∃ r, _legacy_id (.obj kvs) = .ok r) ∧
    (∃ a, _legacy_anchor_in_id (.obj kvs) = .ok a) ∧
    _legacy_id (.bool b) = .error .typeError ∧
    _legacy_anchor_in_id (.bool b) = .error .attributeError ∧
    _legacy_dollar_id (.bool b) = .ok none ∧
    _legacy_anchor_in_dollar_id (.bool b) = .ok [] ∧
    _dollar_id (.bool b) = .ok none ∧
    _anchor_2019 (.bool b) = .ok [] ∧
    ∀ ivs ias isvs, subresources_of ivs ias isvs (.bool b) = .ok [] := by
  refine ⟨?_, ?_, rfl, rfl, rfl, rfl, rfl, rfl, fun _ _ _ => rfl⟩
  · cases hr : hasKey kvs "$ref"
    · rcases hid with h | ⟨s, h⟩
      · exact ⟨none, by simp [_legacy_id, hr, h]⟩
      · cases hp : pyStartswith s "#"
        · exact ⟨some (.str s), by simp [_legacy_id, hr, h, hp]⟩
        · exact ⟨none, by simp [_legacy_id, hr, h, hp]⟩
    · exact ⟨none, by simp [_legacy_id, hr]⟩
  · rcases hid with h | ⟨s, h⟩
    · exact ⟨[], by
        simp [_legacy_anchor_in_id, h,
          show pyStartswith "" "#" = false from rfl]⟩
    · cases hp : pyStartswith s "#"
      · exact ⟨[], by simp [_legacy_anchor_in_id, h, hp]⟩
      · exact ⟨[⟨.str (pyDropFirst s), create_resource (.obj kvs)⟩], by
          simp [_legacy_anchor_in_id, h, hp]⟩

/-- Witness for the amended C3 at a concrete object node. -/
theorem extraction_total_amended_witness :
    (∃ r, _legacy_id (.obj [("id", .str "#a")]) = .ok r) ∧
    (∃ a, _legacy_anchor_in_id (.obj [("id", .str "#a")]) = .ok a) ∧
    _legacy_id (.bool true) = .error .typeError ∧
    _legacy_anchor_in_id (.bool true) = .error .attributeError ∧
    _legacy_dollar_id (.bool true) = .ok none ∧
    _legacy_anchor_in_dollar_id (.bool true) = .ok [] ∧
    _dollar_id (.bool true) = .ok none ∧
    _anchor_2019 (.bool true) = .ok [] ∧
    ∀ ivs ias isvs, subresources_of ivs ias isvs (.bool true) = .ok [] :=
  extraction_total_amended [("id", .str "#a")] true (Or.inr ⟨"#a", rfl⟩)

/-- Counterexample to claim C2: with the anchor-dollar keyword present as
the empty string, the 2019-09 strategy yields one Anchor with an empty
name rather than yielding nothing. -/
theorem anchor_2019_empty_counterexample :
    _anchor_2019 (.obj [("$anchor", .str "")]) =
      .ok [⟨.str "", create_resource (.obj [("$anchor", .str "")])⟩] ∧
    _anchor_2019 (.obj [("$anchor", .str "")]) ≠ .ok [] := by
  refine ⟨rfl, fun h => ?_⟩
  simp [_anchor_2019] at h

/-- Claim C2 (amended): for 2019-09, if the anchor-dollar keyword is
present with a string value, including the empty string, the result is
exactly one Anchor named by that literal value whose resource is the
node itself; if the keyword is absent the result is empty. -/
theorem anchor_2019_extraction (kvs : List (String × JSON)) (s : String) :
    (kvs.lookup "$anchor" = some (.str s) →
      _anchor_2019 (.obj kvs) =
        .ok [⟨.str s, create_resource (.obj kvs)⟩]) ∧
    (kvs.lookup "$anchor" = none → _anchor_2019 (.obj kvs) = .ok []) := by
  exact ⟨fun h => by simp [_anchor_2019, h], fun h => by simp [_anchor_2019, h]⟩

/-- Witness for the amended C2 at the node from the spec example. -/
theorem anchor_2019_extraction_witness :
    _anchor_2019 (.obj [("$anchor", .str "foo")]) =
      .ok [⟨.str "foo", create_resource (.obj [("$anchor", .str "foo")])⟩] :=
  (anchor_2019_extraction [("$anchor", .str "foo")] "foo").1 rfl

/-- Claim C7: legacy anchor enumeration on an object node yields one
Anchor named by everything after the hash when the keyword value starts
with a hash, the bare hash value yielding the degenerate empty name, and
yields nothing when the keyword is absent or its value has no leading
hash; draft-07 and draft-06 read the id-dollar keyword, draft-04 and
draft-03 the plain id keyword. -/
theorem legacy_anchor_extraction (kvs : List (String × JSON)) (s : String) :
    (kvs.lookup "$id" = some (.str s) →
      _legacy_anchor_in_dollar_id (.obj kvs) =
        .ok (if pyStartswith s "#" then
          [⟨.str (pyDropFirst s), create_resource (.obj kvs)⟩] else [])) ∧
    (kvs.lookup "$id" = none →
      _legacy_anchor_in_dollar_id (.obj kvs) = .ok []) ∧
    (kvs.lookup "id" = some (.str s) →
      _legacy_anchor_in_id (.obj kvs) =
        .ok (if pyStartswith s "#" then
          [⟨.str (pyDropFirst s), create_resource (.obj kvs)⟩] else [])) ∧
    (kvs.lookup "id" = none → _legacy_anchor_in_id (.obj kvs) = .ok []) := by
  refine ⟨fun h => ?_, fun h => ?_, fun h => ?_, fun h => ?_⟩ <;>
    simp [_legacy_anchor_in_dollar_id, _legacy_anchor_in_id, h,
      show pyStartswith "" "#" = false from rfl] <;>
      cases hp : pyStartswith s "#" <;> simp [hp]

/-- Witness for C7: the bare hash yields the degenerate empty anchor
name, and it is not filtered out. -/
theorem legacy_anchor_extraction_witness :
    _legacy_anchor_in_dollar_id (.obj [("$id", .str "#")]) =
      .ok [⟨.str "", create_resource (.obj [("$id", .str "#")])⟩] ∧
    _legacy_anchor_in_id (.obj [("id", .str "#x")]) =
      .ok [⟨.str "x", create_resource (.obj [("id", .str "#x")])⟩] := by
  constructor
  · have h := (legacy_anchor_extraction [("$id", .str "#")] "#").1 rfl
    simpa [show pyStartswith "#" "#" = true from rfl,
      show pyDropFirst "#" = "" from rfl] using h
  · have h := (legacy_anchor_extraction [("id", .str "#x")] "#x").2.2.1 rfl
    simpa [show pyStartswith "#x" "#" = true from rfl,
      show pyDropFirst "#x" = "x" from rfl] using h

/-- Claim C8: the 2020-12 strategies yield the empty sequence of
subresources and of anchors for every schema node, boolean or otherwise. -/
theorem draft202012_empty_strategies (s : JSON) :
    DRAFT202012.subresources_of s = .ok [] ∧
    DRAFT202012.anchors_in s = .ok [] :=
  ⟨rfl, rfl⟩

/-- The first loop yields, in keyword order, exactly the values of the
keywords present. -/
theorem yieldValues_eq_filterMap (ks : List String)
    (kvs : List (String × JSON)) :
    yieldValues ks kvs = ks.filterMap fun k => kvs.lookup k := by
  induction ks with
  | nil => rfl
  | cons k ks ih => cases hk : kvs.lookup k <;> simp [yieldValues, hk, ih]

/-- When every present in_subarray keyword maps to an array, the second
loop succeeds with the concatenation of those arrays in keyword order. -/
theorem yieldSubarray_eq_bind (ks : List String)
    (kvs : List (String × JSON))
    (ha : ∀ k ∈ ks, ∀ v, kvs.lookup k = some v → ∃ xs, v = JSON.arr xs) :
    yieldSubarray ks kvs = .ok (ks.flatMap fun k =>
      match kvs.lookup k with
      | some (.arr xs) => xs
      | _ => []) := by
  induction ks with
  | nil => rfl
  | cons k ks ih =>
    have ih2 := ih fun k hk v hv => ha k (List.mem_cons_of_mem _ hk) v hv
    cases hk : kvs.lookup k with
    | none => simp [yieldSubarray, hk, ih2]
    | some v =>
      obtain ⟨xs, rfl⟩ := ha k (List.mem_cons_self _ _) v hk
      simp [yieldSubarray, hk, iterate, ih2, Bind.bind, Except.bind]

/-- When every present in_subvalues keyword maps to an object, the third
loop succeeds with the concatenation of those objects mapping values in
keyword order. -/
theorem yieldSubvalues_eq_bind (ks : List String)
    (kvs : List (String × JSON))
    (hs : ∀ k ∈ ks, ∀ v, kvs.lookup k = some v → ∃ m, v = JSON.obj m) :
    yieldSubvalues ks kvs = .ok (ks.flatMap fun k =>
      match kvs.lookup k with
      | some (.obj m) => m.map fun kv => kv.2
      | _ => []) := by
  induction ks with
  | nil => rfl
  | cons k ks ih =>
    have ih2 := ih fun k hk v hv => hs k (List.mem_cons_of_mem _ hk) v hv
    cases hk : kvs.lookup k with
    | none => simp [yieldSubvalues, hk, ih2]
    | some v =>
      obtain ⟨m, rfl⟩ := hs k (List.mem_cons_self _ _) v hk
      simp [yieldSubvalues, hk, dictValues, ih2, Bind.bind, Except.bind]

/-- The object entries of the example node of the claim, written with
the 2019-09 keyword defs-dollar. -/
def exampleKvsDefs : List (String × JSON) :=
  [ ("allOf", .arr [.obj [("a", .num 1)], .obj [("b", .num 2)]]),
    ("$defs", .obj [("x", .obj [("c", .num 3)])]) ]

/-- The example node of the claim, with the 2019-09 keyword defs-dollar. -/
def exampleNodeDefs : JSON := .obj exampleKvsDefs

/-- The example node exactly as the claim writes it, with the legacy
keyword definitions, which 2019-09 does not treat as a subvalues
keyword. -/
def exampleNodeDefinitions : JSON := .obj
  [ ("allOf", .arr [.obj [("a", .num 1)], .obj [("b", .num 2)]]),
    ("definitions", .obj [("x", .obj [("c", .num 3)])]) ]

/-- Counterexample to claim C5: on the node of the claim, whose mapping
keyword is definitions, the 2019-09 enumeration returns only the two
allOf elements, not the three schemas the claim lists. -/
theorem subresources_definitions_counterexample :
    DRAFT201909.subresources_of exampleNodeDefinitions =
      .ok [.obj [("a", .num 1)], .obj [("b", .num 2)]] ∧
    DRAFT201909.subresources_of exampleNodeDefinitions ≠
      .ok [.obj [("a", .num 1)], .obj [("b", .num 2)],
        .obj [("c", .num 3)]] := by
  refine ⟨rfl, fun h => ?_⟩
  rw [show DRAFT201909.subresources_of exampleNodeDefinitions =
    .ok [.obj [("a", .num 1)], .obj [("b", .num 2)]] from rfl] at h
  have h2 := Except.ok.inj h
  simp at h2

/-- Claim C5 (amended): sub-schema enumeration lists the in_value hits
first, then the in_subarray elements in array order, then the
in_subvalues mapping values in mapping order, with missing keywords
contributing nothing and a boolean node yielding nothing; the 2019-09
mapping keyword is defs-dollar, so the example node written with
defs-dollar enumerates to the three embedded schemas in order. -/
theorem subresources_enumeration_order (iv ia isv : List String)
    (kvs : List (String × JSON)) (b : Bool)
    (ha : ∀ k ∈ ia, ∀ v, kvs.lookup k = some v → ∃ xs, v = JSON.arr xs)
    (hs : ∀ k ∈ isv, ∀ v, kvs.lookup k = some v → ∃ m, v = JSON.obj m) :
    subresources_of iv ia isv (.obj kvs) =
      .ok ((iv.filterMap fun k => kvs.lookup k) ++
        ((ia.flatMap fun k =>
          match kvs.lookup k with
          | some (.arr xs) => xs
          | _ => []) ++
        (isv.flatMap fun k =>
          match kvs.lookup k with
          | some (.obj m) => m.map fun kv => kv.2
          | _ => []))) ∧
    subresources_of iv ia isv (.bool b) = .ok [] ∧
    DRAFT201909.subresources_of exampleNodeDefs =
      .ok [.obj [("a", .num 1)], .obj [("b", .num 2)],
        .obj [("c", .num 3)]] := by
  refine ⟨?_, rfl, rfl⟩
  simp [subresources_of, yieldValues_eq_filterMap,
    yieldSubarray_eq_bind ia kvs ha, yieldSubvalues_eq_bind isv kvs hs,
    Bind.bind, Except.bind]

/-- Witness for the amended C5 at the example node with 2019-09 style
keyword collections. -/
theorem subresources_enumeration_order_witness :
    subresources_of ["not"] ["allOf"] ["$defs"] (.obj exampleKvsDefs) =
      .ok ((["not"].filterMap fun k => exampleKvsDefs.lookup k) ++
        (((["allOf"] : List String).flatMap fun k =>
          match exampleKvsDefs.lookup k with
          | some (.arr xs) => xs
          | _ => []) ++
        ((["$defs"] : List String).flatMap fun k =>
          match exampleKvsDefs.lookup k with
          | some (.obj m) => m.map fun kv => kv.2
          | _ => []))) ∧
    subresources_of ["not"] ["allOf"] ["$defs"] (.bool true) = .ok [] ∧
    DRAFT201909.subresources_of exampleNodeDefs =
      .ok [.obj [("a", .num 1)], .obj [("b", .num 2)],
        .obj [("c", .num 3)]] := by
  refine subresources_enumeration_order ["not"] ["allOf"] ["$defs"]
    exampleKvsDefs true ?_ ?_
  · intro k hk v hv
    simp at hk
    subst hk
    rw [show exampleKvsDefs.lookup "allOf" =
      some (.arr [.obj [("a", .num 1)], .obj [("b", .num 2)]]) from rfl] at hv
    exact ⟨_, (Option.some.inj hv).symm⟩
  · intro k hk v hv
    simp at hk
    subst hk
    rw [show exampleKvsDefs.lookup "$defs" =
      some (.obj [("x", .obj [("c", .num 3)])]) from rfl] at hv
    exact ⟨_, (Option.some.inj hv).symm⟩

end Referencing
